import Mathlib

/-!
Verification of the digital-twin security-simulation core.

This file gives a shallow embedding of the parts of the repository that the
verified properties speak about:

* `src/security/security_evaluator.py`  (class `SecurityEvaluator`)
* `src/security/attack_predictor.py`    (class `AttackPredictor`)
* `src/security/resilience_enhancer.py` (class `ResilienceEnhancer`)
* `src/data/digital_twin_generator.py`  (method `_update_performance_metrics`)

Python floats are modelled as rationals (`ℚ`), Python ints as `ℕ`/`ℤ`.
Python dicts of entities keyed by id are modelled as association lists
`List (String × Entity)`; iteration order of the list matches dict insertion
order.  Timestamps are modelled by their age in whole days relative to "now"
(`age_days : ℤ`, the value of `(datetime.now() - timestamp).days`), which is
the only way the code ever consumes a timestamp.
-/

namespace DigitalTwin

/-- Severity levels used throughout the repository (`'low'/'medium'/'high'/'critical'`). -/
inductive Severity where
  | low
  | medium
  | high
  | critical
deriving DecidableEq

/-- The security configuration dict produced by
`DigitalTwinGenerator._generate_security_config`: exactly these ten keys. -/
structure SecurityConfig where
  encryption_enabled : Bool
  authentication_required : Bool
  firewall_enabled : Bool
  intrusion_detection : Bool
  access_control : String
  audit_logging : Bool
  backup_enabled : Bool
  patch_management : String
  vulnerability_scanning : Bool
  network_isolation : Bool
deriving DecidableEq

/-- The Python `security_config` dict always holds exactly the ten keys of
`SecurityConfig`, so `len(security_config)` is 10
(used by `SecurityEvaluator._assess_documentation`). -/
def security_config_size (_ : SecurityConfig) : ℕ := 10

/-- One vulnerability record attached to an entity.  Only the fields the
analysed code reads are kept (`severity`, `status`); the remaining fields
(id, type, description, cvss_score, ...) are never consumed by the claims'
code paths. -/
structure Vulnerability where
  severity : Severity
  status : String
deriving DecidableEq

/-- One connection record inside `entity['connectivity']['connections']`.
Only the `encrypted` flag is read by the analysed code
(`AttackPredictor._calculate_attack_surface`). -/
structure Connection where
  encrypted : Bool
deriving DecidableEq

/-- The slice of an entity dict read by the evaluator / predictor / enhancer.
`type`, `criticality`, `security_level`, `network_segment`, `access_control`
and `patch_management` are the string tags the Python code compares against. -/
structure Entity where
  id : String
  name : String
  type : String
  network_segment : String
  security_level : String
  criticality : String
  security_config : SecurityConfig
  vulnerabilities : List Vulnerability
  connections : List Connection
deriving DecidableEq

/-- The entity map `entities : Dict[str, entity]`, as an association list in
dict insertion order.  Python dict keys are unique; where a proof needs this
it takes a `Nodup` hypothesis on the keys. -/
abbrev Entities := List (String × Entity)

/-- `entities.values()` in iteration order. -/
def entity_values (es : Entities) : List Entity := es.map Prod.snd

/-- One element of the `security_events` list built by the simulation engine:
`{'timestamp': ..., 'type': ..., 'data': {...}}`.  `severity` models
`event['data'].get('severity')` (`none` when the data dict has no severity),
and `age_days` models `(datetime.now() - event['timestamp']).days`. -/
structure SecurityEvent where
  type : String
  severity : Option Severity
  age_days : ℤ
deriving DecidableEq

/-! ## SecurityEvaluator (`src/security/security_evaluator.py`)

Every per-population assessment in the evaluator is the same loop: count the
entities matching a condition and return `count / total * 100` when the map is
non-empty, `0` otherwise.  `coverage_percent` is that loop; each `assess_*`
definition below supplies the condition of the corresponding Python method. -/

/-- `(matching / total_entities) * 100 if total_entities > 0 else 0`. -/
def coverage_percent (p : Entity → Bool) (es : Entities) : ℚ :=
  if 0 < es.length then
    (((entity_values es).filter p).length : ℚ) / (es.length : ℚ) * 100
  else 0

/-- `SecurityEvaluator._assess_authentication_strength`. -/
def assess_authentication_strength (es : Entities) : ℚ :=
  coverage_percent (fun e => e.security_config.authentication_required) es

/-- `SecurityEvaluator._assess_authorization_coverage`. -/
def assess_authorization_coverage (es : Entities) : ℚ :=
  coverage_percent (fun e => e.security_config.access_control == "role_based") es

/-- `SecurityEvaluator._assess_privilege_management`. -/
def assess_privilege_management (es : Entities) : ℚ :=
  coverage_percent (fun e =>
    e.criticality == "high" &&
    (e.security_config.authentication_required &&
     !(e.security_config.access_control == "none"))) es

/-- `SecurityEvaluator._assess_encryption_coverage`. -/
def assess_encryption_coverage (es : Entities) : ℚ :=
  coverage_percent (fun e => e.security_config.encryption_enabled) es

/-- `SecurityEvaluator._assess_data_classification`. -/
def assess_data_classification (es : Entities) : ℚ :=
  coverage_percent (fun e => e.security_level == "high" || e.security_level == "critical") es

/-- `SecurityEvaluator._assess_backup_security`. -/
def assess_backup_security (es : Entities) : ℚ :=
  coverage_percent (fun e => e.security_config.backup_enabled) es

/-- `SecurityEvaluator._assess_firewall_coverage`. -/
def assess_firewall_coverage (es : Entities) : ℚ :=
  coverage_percent (fun e => e.security_config.firewall_enabled) es

/-- `SecurityEvaluator._assess_network_segmentation`. -/
def assess_network_segmentation (es : Entities) : ℚ :=
  coverage_percent (fun e => !(e.network_segment == "default")) es

/-- `SecurityEvaluator._assess_intrusion_detection`. -/
def assess_intrusion_detection (es : Entities) : ℚ :=
  coverage_percent (fun e => e.security_config.intrusion_detection) es

/-- `SecurityEvaluator._assess_patch_management`. -/
def assess_patch_management (es : Entities) : ℚ :=
  coverage_percent (fun e => e.security_config.patch_management == "automatic") es

/-- `SecurityEvaluator._assess_vulnerability_scanning`. -/
def assess_vulnerability_scanning (es : Entities) : ℚ :=
  coverage_percent (fun e => e.security_config.vulnerability_scanning) es

/-- `SecurityEvaluator._assess_penetration_testing`:
events in the trailing 30 days score `min(n*10, 100)` when present,
otherwise a baseline of 50. -/
def assess_penetration_testing (events : List SecurityEvent) : ℚ :=
  let recent_events := events.filter (fun e => decide (e.age_days ≤ 30))
  if 0 < recent_events.length then min ((recent_events.length : ℚ) * 10) 100
  else 50

/-- `SecurityEvaluator._assess_detection_capability`: intrusion-detection
coverage plus a bonus of `min(5 * #vulnerability-events, 20)`, capped at 100. -/
def assess_detection_capability (es : Entities) (events : List SecurityEvent) : ℚ :=
  let base_score := coverage_percent (fun e => e.security_config.intrusion_detection) es
  let recent_detections := (events.filter (fun e => e.type == "vulnerability")).length
  min (base_score + min ((recent_detections : ℚ) * 5) 20) 100

/-- `SecurityEvaluator._assess_response_time`: 75 when any event exists, else 50. -/
def assess_response_time (events : List SecurityEvent) : ℚ :=
  if 0 < events.length then 75 else 50

/-- `SecurityEvaluator._assess_recovery_procedures`. -/
def assess_recovery_procedures (es : Entities) : ℚ :=
  coverage_percent (fun e =>
    e.security_config.backup_enabled && e.security_config.audit_logging) es

/-- `SecurityEvaluator._assess_regulatory_compliance`. -/
def assess_regulatory_compliance (es : Entities) : ℚ :=
  coverage_percent (fun e =>
    e.security_config.encryption_enabled &&
    (e.security_config.authentication_required && e.security_config.audit_logging)) es

/-- `SecurityEvaluator._assess_audit_trail`. -/
def assess_audit_trail (es : Entities) : ℚ :=
  coverage_percent (fun e => e.security_config.audit_logging) es

/-- `SecurityEvaluator._assess_documentation`:
counts entities whose config dict has at least 8 keys (it always has 10). -/
def assess_documentation (es : Entities) : ℚ :=
  coverage_percent (fun e => 8 ≤ security_config_size e.security_config) es

/-- `SecurityEvaluator._evaluate_domain` for a domain with its three metric
scores: `min(np.mean(domain_scores), max_score)` with `max_score = 100`. -/
def evaluate_domain (m1 m2 m3 : ℚ) : ℚ :=
  min ((m1 + m2 + m3) / 3) 100

/-- The `access_control` domain (metrics per `_initialize_evaluation_criteria`). -/
def access_control_score (es : Entities) : ℚ :=
  evaluate_domain (assess_authentication_strength es)
    (assess_authorization_coverage es) (assess_privilege_management es)

/-- The `data_protection` domain. -/
def data_protection_score (es : Entities) : ℚ :=
  evaluate_domain (assess_encryption_coverage es)
    (assess_data_classification es) (assess_backup_security es)

/-- The `network_security` domain. -/
def network_security_score (es : Entities) : ℚ :=
  evaluate_domain (assess_firewall_coverage es)
    (assess_network_segmentation es) (assess_intrusion_detection es)

/-- The `vulnerability_management` domain. -/
def vulnerability_management_score (es : Entities) (events : List SecurityEvent) : ℚ :=
  evaluate_domain (assess_patch_management es)
    (assess_vulnerability_scanning es) (assess_penetration_testing events)

/-- The `incident_response` domain. -/
def incident_response_score (es : Entities) (events : List SecurityEvent) : ℚ :=
  evaluate_domain (assess_detection_capability es events)
    (assess_response_time events) (assess_recovery_procedures es)

/-- The `compliance` domain. -/
def compliance_score (es : Entities) : ℚ :=
  evaluate_domain (assess_regulatory_compliance es)
    (assess_audit_trail es) (assess_documentation es)

/-- `SecurityEvaluator._calculate_weighted_score` with the six domain weights
of `_initialize_evaluation_criteria` (0.25/0.20/0.20/0.15/0.10/0.10). -/
def calculate_weighted_score (ac dp ns vm ir co : ℚ) : ℚ :=
  (ac * 0.25 + dp * 0.20 + ns * 0.20 + vm * 0.15 + ir * 0.10 + co * 0.10) /
    (0.25 + 0.20 + 0.20 + 0.15 + 0.10 + 0.10)

/-- `SecurityEvaluator._apply_risk_adjustments`: subtract 5 per critical
vulnerability event within 7 days and 2 per high one within 30 days, then
clamp below at 0. -/
def apply_risk_adjustments (base_score : ℚ) (events : List SecurityEvent) : ℚ :=
  let critical_vulns := events.filter (fun e =>
    e.type == "vulnerability" && e.severity == some Severity.critical &&
      decide (e.age_days ≤ 7))
  let high_vulns := events.filter (fun e =>
    e.type == "vulnerability" && e.severity == some Severity.high &&
      decide (e.age_days ≤ 30))
  max (base_score - (critical_vulns.length : ℚ) * 5 - (high_vulns.length : ℚ) * 2) 0

/-- `SecurityEvaluator.evaluate_security`. -/
def evaluate_security (es : Entities) (events : List SecurityEvent) : ℚ :=
  apply_risk_adjustments
    (calculate_weighted_score (access_control_score es) (data_protection_score es)
      (network_security_score es) (vulnerability_management_score es events)
      (incident_response_score es events) (compliance_score es))
    events

/-! ## AttackPredictor (`src/security/attack_predictor.py`) -/

/-- Python substring test `pat in s` on two strings. -/
def contains_substring (s pat : String) : Bool :=
  decide (pat.toList <:+: s.toList)

/-- One entry of the static attack-type catalog
(`AttackPredictor._initialize_attack_types`); the fields the analysed code
reads.  `indicators` and `impact` are carried only into presentation fields
and are omitted. -/
structure AttackInfo where
  probability_base : ℚ
  severity : Severity
  targets : List String
deriving DecidableEq

/-- One entry of the static threat-actor catalog
(`AttackPredictor._initialize_threat_actors`); `motivation` and `persistence`
are never consumed by the analysed code and are omitted. -/
structure ActorInfo where
  capability : String
  target_preference : List String
deriving DecidableEq

/-- The attack-type catalog, in dict insertion order. -/
def attack_types : List (String × AttackInfo) :=
  [("ransomware",
      ⟨0.15, Severity.critical, ["patient_data", "medical_devices", "hospital_systems"]⟩),
   ("data_breach",
      ⟨0.25, Severity.high, ["patient_records", "financial_data", "research_data"]⟩),
   ("denial_of_service",
      ⟨0.20, Severity.medium, ["web_services", "network_infrastructure", "medical_devices"]⟩),
   ("insider_threat",
      ⟨0.10, Severity.high, ["sensitive_data", "system_access", "financial_systems"]⟩),
   ("advanced_persistent_threat",
      ⟨0.05, Severity.critical,
        ["intellectual_property", "research_data", "critical_infrastructure"]⟩),
   ("medical_device_hijacking",
      ⟨0.12, Severity.critical,
        ["patient_monitors", "life_support_systems", "diagnostic_equipment"]⟩)]

/-- The threat-actor catalog, in dict insertion order. -/
def threat_actors : List (String × ActorInfo) :=
  [("cybercriminals", ⟨"medium", ["financial_data", "patient_records"]⟩),
   ("nation_state", ⟨"high", ["research_data", "intellectual_property",
      "critical_infrastructure"]⟩),
   ("hacktivists", ⟨"medium", ["public_systems", "administrative_data"]⟩),
   ("insiders", ⟨"high", ["sensitive_data", "financial_systems"]⟩),
   ("medical_device_hackers", ⟨"high", ["medical_devices", "patient_monitors"]⟩)]

/-- `AttackPredictor._calculate_vulnerability_density`:
`total_vulnerabilities / max(total_entities, 1)` over all vulnerability lists
(no filtering of any kind). -/
def calculate_vulnerability_density (es : Entities) : ℚ :=
  let total_vulnerabilities := ((entity_values es).map (fun e => e.vulnerabilities.length)).sum
  (total_vulnerabilities : ℚ) / ((max es.length 1 : ℕ) : ℚ)

/-- Severity weights `{'low': 1, 'medium': 2, 'high': 3, 'critical': 4}` used by
`AttackPredictor._calculate_threat_activity`. -/
def severity_weight : Severity → ℕ
  | Severity.low => 1
  | Severity.medium => 2
  | Severity.high => 3
  | Severity.critical => 4

/-- `AttackPredictor._calculate_threat_activity`: severity-weighted count of
vulnerability events in the trailing 7 days, divided by 10 and capped at 1.
A missing severity defaults to `'medium'` (`event['data'].get('severity', 'medium')`). -/
def calculate_threat_activity (events : List SecurityEvent) : ℚ :=
  let recent_events := events.filter (fun e => decide (e.age_days ≤ 7))
  let activity_score := (recent_events.map (fun e =>
    if e.type == "vulnerability" then severity_weight (e.severity.getD Severity.medium)
    else 0)).sum
  min ((activity_score : ℚ) / 10) 1

/-- The `unencrypted_connections` counter of
`AttackPredictor._calculate_attack_surface` (the only attack-surface field the
probability adjustment reads; the rest of the surface dict is
presentation-only). -/
def count_unencrypted_connections (es : Entities) : ℕ :=
  ((entity_values es).map (fun e => (e.connections.filter (fun c => !c.encrypted)).length)).sum

/-- The coverage fractions computed by `AttackPredictor._assess_security_posture`. -/
structure SecurityPosture where
  encryption_coverage : ℚ
  authentication_coverage : ℚ
  firewall_coverage : ℚ
  patch_management_coverage : ℚ
deriving DecidableEq

/-- `AttackPredictor._assess_security_posture`: per-control coverage fractions,
all zero when the entity map is empty. -/
def assess_security_posture (es : Entities) : SecurityPosture :=
  if es.length = 0 then ⟨0, 0, 0, 0⟩
  else
    ⟨(((entity_values es).filter (fun e => e.security_config.encryption_enabled)).length : ℚ)
        / (es.length : ℚ),
     (((entity_values es).filter (fun e => e.security_config.authentication_required)).length : ℚ)
        / (es.length : ℚ),
     (((entity_values es).filter (fun e => e.security_config.firewall_enabled)).length : ℚ)
        / (es.length : ℚ),
     (((entity_values es).filter (fun e =>
          !(e.security_config.patch_management == "none"))).length : ℚ) / (es.length : ℚ)⟩

/-- The threat-landscape record assembled by
`AttackPredictor._analyze_threat_landscape` (the `recent_incidents` entry is
never consumed by the analysed code and is omitted). -/
structure ThreatLandscape where
  vulnerability_density : ℚ
  threat_activity_level : ℚ
  unencrypted_connections : ℕ
  security_posture : SecurityPosture
deriving DecidableEq

/-- `AttackPredictor._analyze_threat_landscape`. -/
def analyze_threat_landscape (es : Entities) (events : List SecurityEvent) : ThreatLandscape :=
  ⟨calculate_vulnerability_density es, calculate_threat_activity events,
   count_unencrypted_connections es, assess_security_posture es⟩

/-- `AttackPredictor._adjust_probability`: the sequence of in-place
multiplications, then `min(adjusted, 1.0)`. -/
def adjust_probability (base_probability : ℚ) (landscape : ThreatLandscape) : ℚ :=
  let a1 := base_probability * (1 + landscape.vulnerability_density * 0.5)
  let a2 := a1 * (1 + landscape.threat_activity_level * 0.3)
  let a3 := if 0 < landscape.unencrypted_connections then a2 * 1.2 else a2
  let a4 := if landscape.security_posture.encryption_coverage < 0.5 then a3 * 1.3 else a3
  let a5 := if landscape.security_posture.authentication_coverage < 0.5 then a4 * 1.4 else a4
  min a5 1

/-- `AttackPredictor._is_compatible_target`: some actor target preference is a
member of the attack type's target list. -/
def is_compatible_target (attack_targets : List String) (actor : ActorInfo) : Bool :=
  actor.target_preference.any (fun t => attack_targets.contains t)

/-- `AttackPredictor._select_target_entities`: ids of entities whose `type`
string contains some attack-target tag as a substring, first-match order,
truncated to 5 (`targets[:min(len(targets), 5)]`). -/
def select_target_entities (attack_targets : List String) (es : Entities) : List String :=
  ((es.filter (fun p => attack_targets.any (fun t => contains_substring p.2.type t))).map
    Prod.fst).take 5

/-- `base_impact = {'low': 0.3, 'medium': 0.6, 'high': 0.8, 'critical': 1.0}`
in `AttackPredictor._calculate_impact_score`. -/
def base_impact : Severity → ℚ
  | Severity.low => 0.3
  | Severity.medium => 0.6
  | Severity.high => 0.8
  | Severity.critical => 1.0

/-- `capability_multiplier = {'low': 0.8, 'medium': 1.0, 'high': 1.3}` in
`AttackPredictor._calculate_impact_score`.  The actor catalog only contains
the three listed capability strings, so the fallback `1` is unreachable for
this program (Python would raise `KeyError` there). -/
def capability_multiplier (capability : String) : ℚ :=
  if capability == "low" then 0.8
  else if capability == "medium" then 1.0
  else if capability == "high" then 1.3
  else 1

/-- `AttackPredictor._calculate_impact_score`. -/
def calculate_impact_score (attack_severity : Severity) (actor : ActorInfo)
    (target_count : ℕ) : ℚ :=
  let impact := base_impact attack_severity
  let impact := impact * capability_multiplier actor.capability
  let impact := impact * min ((target_count : ℚ) / 5) 1
  min impact 1

/-- A predicted attack scenario.  Presentation-only fields of the Python dict
(`indicators`, `attack_path`, `estimated_duration`, `detection_difficulty`,
`mitigation_effort`, `timestamp`) are omitted.  `risk_score` is absent from
the dict until `_rank_scenarios` adds it; it is modelled as the field being 0
at creation and overwritten by `rank_scenarios`. -/
structure AttackScenario where
  id : String
  type : String
  threat_actor : String
  probability : ℚ
  severity : Severity
  targets : List String
  impact_score : ℚ
  risk_score : ℚ
deriving DecidableEq

/-- `AttackPredictor._create_attack_scenario`. -/
def create_attack_scenario (attack_type : String) (attack_info : AttackInfo)
    (actor_type : String) (actor_info : ActorInfo) (es : Entities)
    (probability : ℚ) : AttackScenario :=
  let target_entities := select_target_entities attack_info.targets es
  { id := attack_type ++ "_" ++ actor_type ++ "_" ++ toString target_entities.length
    type := attack_type
    threat_actor := actor_type
    probability := probability
    severity := attack_info.severity
    targets := target_entities
    impact_score := calculate_impact_score attack_info.severity actor_info
      target_entities.length
    risk_score := 0 }

/-- `AttackPredictor._generate_attack_scenarios`: one scenario per compatible
threat actor, all sharing the attack type's adjusted probability. -/
def generate_attack_scenarios (attack_type : String) (attack_info : AttackInfo)
    (es : Entities) (landscape : ThreatLandscape) : List AttackScenario :=
  let adjusted_probability := adjust_probability attack_info.probability_base landscape
  (threat_actors.filter (fun a => is_compatible_target attack_info.targets a.2)).map
    (fun a => create_attack_scenario attack_type attack_info a.1 a.2 es adjusted_probability)

/-- `AttackPredictor._rank_scenarios`: set `risk_score = probability *
impact_score` on every scenario, then `list.sort(key=..., reverse=True)` —
a stable descending sort by risk score, modelled by `List.insertionSort`
(which is stable). -/
def rank_scenarios (scenarios : List AttackScenario) : List AttackScenario :=
  List.insertionSort (fun a b => b.risk_score ≤ a.risk_score)
    (scenarios.map (fun s => { s with risk_score := s.probability * s.impact_score }))

/-- `AttackPredictor.predict_attacks`. -/
def predict_attacks (es : Entities) (events : List SecurityEvent) : List AttackScenario :=
  let landscape := analyze_threat_landscape es events
  rank_scenarios (attack_types.flatMap
    (fun t => generate_attack_scenarios t.1 t.2 es landscape))

/-! ## DigitalTwinGenerator (`src/data/digital_twin_generator.py`)

Only `_update_performance_metrics` is analysed.  The `performance_metrics`
dict maps metric names to values; the Python code's `isinstance(value, float)`
split is modelled by `MetricValue`.  The per-metric draw
`random.uniform(-0.1, 0.1)` is modelled by an explicit variation function
`vary : String → ℚ` indexed by the metric name (each dict key is drawn
independently; dict keys are unique). -/

/-- A value of the `performance_metrics` dict: a Python float, or any
non-float value (which `_update_performance_metrics` passes through
unchanged). -/
inductive MetricValue where
  | num (q : ℚ)
  | other
deriving DecidableEq

/-- The bound-clamping `if/elif` chain of
`DigitalTwinGenerator._update_performance_metrics`, applied to the jittered
value.  Note the chain tests `'time' in key` before `'uptime' in key`, and
`'uptime'` contains `'time'`. -/
def clamp_metric (key : String) (new_value : ℚ) : ℚ :=
  if contains_substring key "usage" then max 0 (min 100 new_value)
  else if contains_substring key "rate" then max 0 (min 1 new_value)
  else if contains_substring key "time" then max 0 new_value
  else if contains_substring key "uptime" then max 0 (min 1 new_value)
  else new_value

/-- `DigitalTwinGenerator._update_performance_metrics`: for each float metric,
multiply by `(1 + variation)` with `variation = random.uniform(-0.1, 0.1)`,
then clamp by the name-based chain; non-floats are copied unchanged. -/
def update_performance_metrics (vary : String → ℚ)
    (current_metrics : List (String × MetricValue)) : List (String × MetricValue) :=
  current_metrics.map (fun p =>
    match p.2 with
    | MetricValue.num value =>
        (p.1, MetricValue.num (clamp_metric p.1 (value * (1 + vary p.1))))
    | MetricValue.other => p)

/-! ## ResilienceEnhancer (`src/security/resilience_enhancer.py`) -/

/-- One entry of `ResilienceEnhancer._initialize_recommendation_templates`
(`title`, `description` and `implementation` are presentation-only text and
are omitted). -/
structure RecommendationTemplate where
  priority : String
  effort : String
  impact : String
deriving DecidableEq

/-- The recommendation-template catalog, in dict insertion order: exactly
eight templates. -/
def recommendation_templates : List (String × RecommendationTemplate) :=
  [("encryption", ⟨"high", "medium", "high"⟩),
   ("authentication", ⟨"high", "medium", "high"⟩),
   ("firewall", ⟨"medium", "low", "medium"⟩),
   ("patch_management", ⟨"high", "high", "high"⟩),
   ("vulnerability_scanning", ⟨"medium", "low", "medium"⟩),
   ("network_isolation", ⟨"high", "high", "high"⟩),
   ("audit_logging", ⟨"medium", "low", "medium"⟩),
   ("backup_security", ⟨"medium", "medium", "high"⟩)]

/-- `self.recommendation_templates[rec_type]`.  Callers only pass the eight
catalog keys, so the fallback (Python would raise `KeyError`) is unreachable
for this program. -/
def find_template (rec_type : String) : RecommendationTemplate :=
  (recommendation_templates.lookup rec_type).getD ⟨"low", "low", "low"⟩

/-- A recommendation record.  `title`/`description`/`implementation`/
`target_system`/`created_at`/`estimated_completion` are presentation-only and
omitted.  `priority_score` is absent from the Python dict until
`_prioritize_recommendations` adds it (modelled as 0 at creation);
`error` is absent until a failed apply adds it; `applied_at` is absent until a
successful apply adds it (the timestamp is the abstract instant `now` passed
to `apply_recommendation`). -/
structure Recommendation where
  id : String
  type : String
  priority : String
  effort : String
  impact : String
  target_entity : String
  status : String
  priority_score : ℕ
  error : Option String
  applied_at : Option ℕ
deriving DecidableEq

/-- `ResilienceEnhancer._create_recommendation` (entity-targeted). -/
def create_recommendation (rec_type : String) (e : Entity) : Recommendation :=
  let template := find_template rec_type
  { id := rec_type ++ "_" ++ e.id
    type := rec_type
    priority := template.priority
    effort := template.effort
    impact := template.impact
    target_entity := e.id
    status := "pending"
    priority_score := 0
    error := none
    applied_at := none }

/-- `ResilienceEnhancer._generate_entity_recommendations`: one recommendation
per disabled-or-insecure control, with `network_isolation` emitted only for
entities whose criticality is exactly `'high'`.  The checks appear in source
order. -/
def generate_entity_recommendations (e : Entity) : List Recommendation :=
  let security_config := e.security_config
  (if !security_config.encryption_enabled then [create_recommendation "encryption" e] else []) ++
  (if !security_config.authentication_required then
      [create_recommendation "authentication" e] else []) ++
  (if !security_config.firewall_enabled then [create_recommendation "firewall" e] else []) ++
  (if security_config.patch_management == "none" then
      [create_recommendation "patch_management" e] else []) ++
  (if !security_config.vulnerability_scanning then
      [create_recommendation "vulnerability_scanning" e] else []) ++
  (if e.criticality == "high" && !security_config.network_isolation then
      [create_recommendation "network_isolation" e] else []) ++
  (if !security_config.audit_logging then [create_recommendation "audit_logging" e] else []) ++
  (if !security_config.backup_enabled then [create_recommendation "backup_security" e] else [])

/-- `priority_scores = {'low': 1, 'medium': 2, 'high': 3, 'critical': 4}` with
`.get(..., 1)` default. -/
def priority_ordinal (s : String) : ℕ :=
  if s == "low" then 1
  else if s == "medium" then 2
  else if s == "high" then 3
  else if s == "critical" then 4
  else 1

/-- `effort_scores = {'low': 3, 'medium': 2, 'high': 1}` with `.get(..., 2)`
default. -/
def effort_reward (s : String) : ℕ :=
  if s == "low" then 3
  else if s == "medium" then 2
  else if s == "high" then 1
  else 2

/-- `impact_scores = {'low': 1, 'medium': 2, 'high': 3}` with `.get(..., 2)`
default. -/
def impact_ordinal (s : String) : ℕ :=
  if s == "low" then 1
  else if s == "medium" then 2
  else if s == "high" then 3
  else 2

/-- The score assignment inside `ResilienceEnhancer._prioritize_recommendations`:
`rec['priority_score'] = priority_score * impact_score * effort_score`. -/
def assign_priority_score (rec : Recommendation) : Recommendation :=
  { rec with priority_score :=
      priority_ordinal rec.priority * impact_ordinal rec.impact * effort_reward rec.effort }

/-- `ResilienceEnhancer._prioritize_recommendations`: assign every score, then
`recommendations.sort(key=lambda x: x['priority_score'], reverse=True)` — a
stable descending sort, modelled by the stable `List.insertionSort`. -/
def prioritize_recommendations (recommendations : List Recommendation) :
    List Recommendation :=
  List.insertionSort (fun a b => b.priority_score ≤ a.priority_score)
    (recommendations.map assign_priority_score)

/-- `ResilienceEnhancer._apply_to_entity`: flip the security-config field
named by the fixed type→field table; unknown types fall off the `elif` chain
and change nothing.  (`entity['last_updated'] = datetime.now()` touches a
field outside the modelled entity slice.) -/
def apply_to_entity (rec : Recommendation) (e : Entity) : Entity :=
  let security_config := e.security_config
  let security_config :=
    if rec.type == "encryption" then { security_config with encryption_enabled := true }
    else if rec.type == "authentication" then
      { security_config with authentication_required := true }
    else if rec.type == "firewall" then { security_config with firewall_enabled := true }
    else if rec.type == "patch_management" then
      { security_config with patch_management := "automatic" }
    else if rec.type == "vulnerability_scanning" then
      { security_config with vulnerability_scanning := true }
    else if rec.type == "network_isolation" then
      { security_config with network_isolation := true }
    else if rec.type == "audit_logging" then { security_config with audit_logging := true }
    else if rec.type == "backup_security" then { security_config with backup_enabled := true }
    else security_config
  { e with security_config := security_config }

/-- The system-wide loop of `apply_recommendation` under `try`-semantics for
an arbitrary mutation step: entities are mutated in place one at a time, and
the first raised error aborts the loop, leaving the already-mutated prefix in
the map.  Returns the raised error (if any) and the resulting map. -/
def apply_all_entities (step : Entity → Except String Entity) :
    Entities → Option String × Entities
  | [] => (none, [])
  | (k, e) :: rest =>
      match step e with
      | Except.ok e' =>
          let r := apply_all_entities step rest
          (r.1, (k, e') :: r.2)
      | Except.error msg => (some msg, (k, e) :: rest)

/-- `ResilienceEnhancer.apply_recommendation`, parametrised by the internal
mutation step so that the `try/except Exception` boundary can be stated for
an arbitrary internal failure.  A raised exception is an `Except.error` of the
step; the function itself is total — nothing escapes the boundary.  On success
it sets `status='applied'` and `applied_at=now` and returns `True`; on an
internal error it sets `status='failed'`, records `str(e)`, and returns
`False`.  A single-entity target absent from the map (`entities.get` returns
`None`) skips the mutation but still reaches the success path. -/
def apply_recommendation_with (step : Recommendation → Entity → Except String Entity)
    (now : ℕ) (rec : Recommendation) (entities : Entities) :
    Bool × Recommendation × Entities :=
  if rec.target_entity == "system_wide" then
    match apply_all_entities (step rec) entities with
    | (none, entities') =>
        (true, { rec with status := "applied", applied_at := some now }, entities')
    | (some msg, entities') =>
        (false, { rec with status := "failed", error := some msg }, entities')
  else
    match entities.lookup rec.target_entity with
    | some e =>
        match step rec e with
        | Except.ok e' =>
            (true, { rec with status := "applied", applied_at := some now },
             entities.map (fun p => if p.1 == rec.target_entity then (p.1, e') else p))
        | Except.error msg =>
            (false, { rec with status := "failed", error := some msg }, entities)
    | none =>
        (true, { rec with status := "applied", applied_at := some now }, entities)

/-- `ResilienceEnhancer.apply_recommendation` with the concrete mutation step
`_apply_to_entity`, which never raises on the modelled entity record. -/
def apply_recommendation (now : ℕ) (rec : Recommendation) (entities : Entities) :
    Bool × Recommendation × Entities :=
  apply_recommendation_with (fun r e => Except.ok (apply_to_entity r e)) now rec entities

/-! ## Spec-side definitions used to compare code against the spec's words -/

/-- The density the specification describes for
`AttackPredictor._calculate_vulnerability_density`: open-status
vulnerabilities only, divided by the entity count (0 for an empty map).
Stated from the spec's words, to be compared with
`calculate_vulnerability_density` above. -/
def spec_open_vulnerability_density (es : Entities) : ℚ :=
  if es.length = 0 then 0
  else
    (((entity_values es).map (fun e =>
        (e.vulnerabilities.filter (fun v => v.status == "open")).length)).sum : ℚ) /
      (es.length : ℚ)

/-! ## Concrete fixtures used by counterexamples and witnesses -/

/-- A security config with every boolean control off, `access_control='none'`
and `patch_management='none'`. -/
def all_disabled_config : SecurityConfig :=
  ⟨false, false, false, false, "none", false, false, "none", false, false⟩

/-- A medium-criticality entity with every control disabled. -/
def sample_entity : Entity :=
  ⟨"e1", "MRI-1000", "medical_device", "default", "low", "medium",
   all_disabled_config, [], []⟩

/-- `sample_entity` carrying a single vulnerability whose status is
`'mitigated'` (not `'open'`). -/
def mitigated_entity : Entity :=
  { sample_entity with vulnerabilities := [⟨Severity.low, "mitigated"⟩] }

/-! ## Helper lemmas -/

lemma entity_values_length (es : Entities) : (entity_values es).length = es.length :=
  List.length_map _ _

lemma coverage_percent_nonneg (p : Entity → Bool) (es : Entities) :
    0 ≤ coverage_percent p es := by
  unfold coverage_percent
  split
  · positivity
  · norm_num

lemma coverage_percent_le_100 (p : Entity → Bool) (es : Entities) :
    coverage_percent p es ≤ 100 := by
  unfold coverage_percent
  split
  · rename_i h
    have hlen : ((entity_values es).filter p).length ≤ es.length := by
      calc ((entity_values es).filter p).length ≤ (entity_values es).length :=
            List.length_filter_le _ _
        _ = es.length := entity_values_length es
    have hpos : (0 : ℚ) < (es.length : ℚ) := by exact_mod_cast h
    have hdiv : (((entity_values es).filter p).length : ℚ) / (es.length : ℚ) ≤ 1 := by
      rw [div_le_one hpos]
      exact_mod_cast hlen
    nlinarith
  · norm_num

lemma assess_penetration_testing_bounds (events : List SecurityEvent) :
    0 ≤ assess_penetration_testing events ∧ assess_penetration_testing events ≤ 100 := by
  unfold assess_penetration_testing
  dsimp only
  by_cases h : 0 < (events.filter (fun e => decide (e.age_days ≤ 30))).length
  · rw [if_pos h]
    exact ⟨le_min (by positivity) (by norm_num), min_le_right _ _⟩
  · rw [if_neg h]
    norm_num

lemma assess_detection_capability_bounds (es : Entities) (events : List SecurityEvent) :
    0 ≤ assess_detection_capability es events ∧ assess_detection_capability es events ≤ 100 := by
  unfold assess_detection_capability
  refine ⟨le_min ?_ (by norm_num), min_le_right _ _⟩
  have h1 := coverage_percent_nonneg (fun e => e.security_config.intrusion_detection) es
  have h2 : (0 : ℚ) ≤ min (((events.filter (fun e => e.type == "vulnerability")).length : ℚ) * 5)
      20 := le_min (by positivity) (by norm_num)
  linarith

lemma assess_response_time_bounds (events : List SecurityEvent) :
    0 ≤ assess_response_time events ∧ assess_response_time events ≤ 100 := by
  unfold assess_response_time
  split <;> norm_num

lemma evaluate_domain_bounds {m1 m2 m3 : ℚ} (h1 : 0 ≤ m1) (h2 : 0 ≤ m2) (h3 : 0 ≤ m3) :
    0 ≤ evaluate_domain m1 m2 m3 ∧ evaluate_domain m1 m2 m3 ≤ 100 := by
  unfold evaluate_domain
  exact ⟨le_min (by linarith) (by norm_num), min_le_right _ _⟩

lemma access_control_score_bounds (es : Entities) :
    0 ≤ access_control_score es ∧ access_control_score es ≤ 100 :=
  evaluate_domain_bounds (coverage_percent_nonneg _ _) (coverage_percent_nonneg _ _)
    (coverage_percent_nonneg _ _)

lemma data_protection_score_bounds (es : Entities) :
    0 ≤ data_protection_score es ∧ data_protection_score es ≤ 100 :=
  evaluate_domain_bounds (coverage_percent_nonneg _ _) (coverage_percent_nonneg _ _)
    (coverage_percent_nonneg _ _)

lemma network_security_score_bounds (es : Entities) :
    0 ≤ network_security_score es ∧ network_security_score es ≤ 100 :=
  evaluate_domain_bounds (coverage_percent_nonneg _ _) (coverage_percent_nonneg _ _)
    (coverage_percent_nonneg _ _)

lemma vulnerability_management_score_bounds (es : Entities) (events : List SecurityEvent) :
    0 ≤ vulnerability_management_score es events ∧
      vulnerability_management_score es events ≤ 100 :=
  evaluate_domain_bounds (coverage_percent_nonneg _ _) (coverage_percent_nonneg _ _)
    (assess_penetration_testing_bounds events).1

lemma incident_response_score_bounds (es : Entities) (events : List SecurityEvent) :
    0 ≤ incident_response_score es events ∧ incident_response_score es events ≤ 100 :=
  evaluate_domain_bounds (assess_detection_capability_bounds es events).1
    (assess_response_time_bounds events).1 (coverage_percent_nonneg _ _)

lemma compliance_score_bounds (es : Entities) :
    0 ≤ compliance_score es ∧ compliance_score es ≤ 100 :=
  evaluate_domain_bounds (coverage_percent_nonneg _ _) (coverage_percent_nonneg _ _)
    (coverage_percent_nonneg _ _)

lemma calculate_weighted_score_bounds {ac dp ns vm ir co : ℚ}
    (hac : 0 ≤ ac ∧ ac ≤ 100) (hdp : 0 ≤ dp ∧ dp ≤ 100) (hns : 0 ≤ ns ∧ ns ≤ 100)
    (hvm : 0 ≤ vm ∧ vm ≤ 100) (hir : 0 ≤ ir ∧ ir ≤ 100) (hco : 0 ≤ co ∧ co ≤ 100) :
    0 ≤ calculate_weighted_score ac dp ns vm ir co ∧
      calculate_weighted_score ac dp ns vm ir co ≤ 100 := by
  unfold calculate_weighted_score
  obtain ⟨hac0, hac1⟩ := hac
  obtain ⟨hdp0, hdp1⟩ := hdp
  obtain ⟨hns0, hns1⟩ := hns
  obtain ⟨hvm0, hvm1⟩ := hvm
  obtain ⟨hir0, hir1⟩ := hir
  obtain ⟨hco0, hco1⟩ := hco
  norm_num
  constructor <;> linarith

lemma apply_risk_adjustments_bounds {base_score : ℚ} (events : List SecurityEvent)
    (h100 : base_score ≤ 100) :
    0 ≤ apply_risk_adjustments base_score events ∧
      apply_risk_adjustments base_score events ≤ 100 := by
  unfold apply_risk_adjustments
  refine ⟨le_max_right _ _, max_le ?_ (by norm_num)⟩
  have hc : (0 : ℚ) ≤ ((events.filter (fun e =>
      e.type == "vulnerability" && e.severity == some Severity.critical &&
        decide (e.age_days ≤ 7))).length : ℚ) := by positivity
  have hh : (0 : ℚ) ≤ ((events.filter (fun e =>
      e.type == "vulnerability" && e.severity == some Severity.high &&
        decide (e.age_days ≤ 30))).length : ℚ) := by positivity
  linarith

lemma coverage_percent_nil (p : Entity → Bool) : coverage_percent p [] = 0 := by
  unfold coverage_percent
  norm_num

/-! ## Claim theorems -/

/-- C2 (confirmed): for every entity map and every security-event list,
`evaluate_security` returns a value in the closed interval [0,100]: every
metric lies in [0,100], each domain score is a capped mean of three metrics,
the six domain weights sum to 1, and the event penalties only subtract with a
final clamp at 0, so the weighted average minus the penalties never leaves
the interval. -/
theorem evaluate_security_in_range (es : Entities) (events : List SecurityEvent) :
    0 ≤ evaluate_security es events ∧ evaluate_security es events ≤ 100 := by
  unfold evaluate_security
  exact apply_risk_adjustments_bounds events
    (calculate_weighted_score_bounds (access_control_score_bounds es)
      (data_protection_score_bounds es) (network_security_score_bounds es)
      (vulnerability_management_score_bounds es events)
      (incident_response_score_bounds es events) (compliance_score_bounds es)).2

/-- C1 (counterexample): on the empty entity map with no events,
`evaluate_security` does not return 0 — the event-based baseline metrics
(`penetration_testing` and `response_time` both return 50 on no events) keep
the score strictly positive. -/
theorem evaluate_security_empty_ne_zero : evaluate_security [] [] ≠ 0 := by
  norm_num [evaluate_security, apply_risk_adjustments, calculate_weighted_score,
    access_control_score, data_protection_score, network_security_score,
    vulnerability_management_score, incident_response_score, compliance_score,
    evaluate_domain, assess_authentication_strength, assess_authorization_coverage,
    assess_privilege_management, assess_encryption_coverage, assess_data_classification,
    assess_backup_security, assess_firewall_coverage, assess_network_segmentation,
    assess_intrusion_detection, assess_patch_management, assess_vulnerability_scanning,
    assess_penetration_testing, assess_detection_capability, assess_response_time,
    assess_recovery_procedures, assess_regulatory_compliance, assess_audit_trail,
    assess_documentation, coverage_percent, entity_values]

/-- C1 (amended): on the empty entity map every per-population ratio metric
returns 0 (the guarded division never raises), but `evaluate_security` itself
does not return 0: with no events the two baseline heuristic metrics
(`penetration_testing` = 50, `response_time` = 50) make the overall score
`(50/3)·0.15 + (50/3)·0.10 = 25/6`. -/
theorem evaluate_security_empty_value :
    assess_authentication_strength [] = 0 ∧ assess_authorization_coverage [] = 0 ∧
    assess_privilege_management [] = 0 ∧ assess_encryption_coverage [] = 0 ∧
    assess_data_classification [] = 0 ∧ assess_backup_security [] = 0 ∧
    assess_firewall_coverage [] = 0 ∧ assess_network_segmentation [] = 0 ∧
    assess_intrusion_detection [] = 0 ∧ assess_patch_management [] = 0 ∧
    assess_vulnerability_scanning [] = 0 ∧ assess_recovery_procedures [] = 0 ∧
    assess_regulatory_compliance [] = 0 ∧ assess_audit_trail [] = 0 ∧
    assess_documentation [] = 0 ∧
    evaluate_security [] [] = 25 / 6 := by
  refine ⟨coverage_percent_nil _, coverage_percent_nil _, coverage_percent_nil _,
    coverage_percent_nil _, coverage_percent_nil _, coverage_percent_nil _,
    coverage_percent_nil _, coverage_percent_nil _, coverage_percent_nil _,
    coverage_percent_nil _, coverage_percent_nil _, coverage_percent_nil _,
    coverage_percent_nil _, coverage_percent_nil _, coverage_percent_nil _, ?_⟩
  norm_num [evaluate_security, apply_risk_adjustments, calculate_weighted_score,
    access_control_score, data_protection_score, network_security_score,
    vulnerability_management_score, incident_response_score, compliance_score,
    evaluate_domain, assess_authentication_strength, assess_authorization_coverage,
    assess_privilege_management, assess_encryption_coverage, assess_data_classification,
    assess_backup_security, assess_firewall_coverage, assess_network_segmentation,
    assess_intrusion_detection, assess_patch_management, assess_vulnerability_scanning,
    assess_penetration_testing, assess_detection_capability, assess_response_time,
    assess_recovery_procedures, assess_regulatory_compliance, assess_audit_trail,
    assess_documentation, coverage_percent, entity_values]

/-- C3 (code bug): the clamping chain of `_update_performance_metrics` tests
`'time' in key` before `'uptime' in key`, and `'uptime'` contains `'time'` as
a substring, so the `uptime` metric is only clamped below at 0 — never above
at 1.  Starting from the generator-reachable value `uptime = 0.999`, a +10%
jitter yields `1.0989 > 1`. -/
theorem update_metrics_uptime_exceeds_one :
    contains_substring "uptime" "time" = true ∧
    update_performance_metrics (fun _ => 1 / 10)
        [("uptime", MetricValue.num (999 / 1000))] =
      [("uptime", MetricValue.num (10989 / 10000))] ∧
    (1 : ℚ) < 10989 / 10000 := by
  have h1 : contains_substring "uptime" "usage" = false := by decide
  have h2 : contains_substring "uptime" "rate" = false := by decide
  have h3 : contains_substring "uptime" "time" = true := by decide
  refine ⟨h3, ?_, by norm_num⟩
  simp only [update_performance_metrics, clamp_metric, h1, h2, h3, List.map,
    Bool.false_eq_true, if_false, if_true]
  norm_num

/-- C5 (counterexample): `_calculate_vulnerability_density` counts every
vulnerability regardless of its status.  A map holding one entity with one
`'mitigated'` vulnerability has density 1, while the claimed open-status
density is 0. -/
theorem vulnerability_density_counts_mitigated :
    calculate_vulnerability_density [("e1", mitigated_entity)] = 1 ∧
    spec_open_vulnerability_density [("e1", mitigated_entity)] = 0 ∧ (1 : ℚ) ≠ 0 := by
  refine ⟨?_, ?_, by norm_num⟩
  · norm_num [calculate_vulnerability_density, entity_values, mitigated_entity, sample_entity]
  · norm_num [spec_open_vulnerability_density, entity_values, mitigated_entity, sample_entity]
    decide

/-- C5 (amended): `_calculate_vulnerability_density` is the total number of
vulnerabilities of any status across all entities divided by the entity
count when the map is non-empty; it is 0 for the empty map, and in
particular 0 whenever no entity has any vulnerability. -/
theorem vulnerability_density_amended (es : Entities) :
    (es ≠ [] →
      calculate_vulnerability_density es =
        (((entity_values es).map (fun e => e.vulnerabilities.length)).sum : ℚ) /
          (es.length : ℚ)) ∧
    (es = [] → calculate_vulnerability_density es = 0) ∧
    ((∀ e ∈ entity_values es, e.vulnerabilities = []) →
      calculate_vulnerability_density es = 0) := by
  refine ⟨?_, ?_, ?_⟩
  · intro hne
    unfold calculate_vulnerability_density
    have hpos : 1 ≤ es.length := List.length_pos.mpr hne
    rw [max_eq_left hpos]
  · intro h
    subst h
    norm_num [calculate_vulnerability_density, entity_values]
  · intro h
    unfold calculate_vulnerability_density
    have hsum : ((entity_values es).map (fun e => (e.vulnerabilities.length : ℚ))).sum = 0 := by
      apply List.sum_eq_zero
      intro q hq
      obtain ⟨e, he, rfl⟩ := List.mem_map.mp hq
      simp [h e he]
    rw [hsum]
    norm_num

/-- C5 (witness): the amended theorem applied to a one-entity map with no
vulnerabilities. -/
theorem vulnerability_density_amended_witness :
    calculate_vulnerability_density [("e1", sample_entity)] = 0 :=
  (vulnerability_density_amended [("e1", sample_entity)]).2.2 (by decide)

/-- C7 (counterexample): an entity with every security-config control
disabled and criticality `'medium'` receives exactly 7 recommendations, not
the claimed ≥ 8 — the `network_isolation` template is only emitted for
criticality exactly `'high'`. -/
theorem entity_recommendations_seven_not_eight :
    (generate_entity_recommendations sample_entity).length = 7 ∧
    ¬ 8 ≤ (generate_entity_recommendations sample_entity).length := by
  constructor <;> decide

/-- C7 (amended): an entity whose security config has every control disabled
or insecure receives one recommendation per template except
`network_isolation` — 7 in total — plus the `network_isolation`
recommendation exactly when its criticality is `'high'` (8 in total then). -/
theorem entity_recommendations_count (e : Entity)
    (hc : e.security_config = all_disabled_config) :
    (generate_entity_recommendations e).map (fun r => r.type) =
      ["encryption", "authentication", "firewall", "patch_management",
        "vulnerability_scanning"] ++
        (if e.criticality = "high" then ["network_isolation"] else []) ++
        ["audit_logging", "backup_security"] ∧
    (generate_entity_recommendations e).length =
      if e.criticality = "high" then 8 else 7 := by
  by_cases hcrit : e.criticality = "high" <;>
    simp [generate_entity_recommendations, hc, all_disabled_config, hcrit,
      create_recommendation]

/-- C7 (witness): the amended theorem applied to the all-disabled entity with
criticality `'high'`: 8 recommendations, including `network_isolation`. -/
theorem entity_recommendations_count_witness :
    (generate_entity_recommendations { sample_entity with criticality := "high" }).length = 8 := by
  have h := (entity_recommendations_count { sample_entity with criticality := "high" } rfl).2
  simpa using h

lemma apply_all_entities_ok (f : Entity → Entity) (es : Entities) :
    apply_all_entities (fun e => Except.ok (f e)) es =
      (none, es.map (fun p => (p.1, f p.2))) := by
  induction es with
  | nil => rfl
  | cons p rest ih => simp [apply_all_entities, ih]

lemma lookup_map_replace (es : Entities) (k : String) (e e' : Entity)
    (h : es.lookup k = some e) :
    (es.map (fun p => if p.1 == k then (p.1, e') else p)).lookup k = some e' := by
  induction es with
  | nil => simp [List.lookup] at h
  | cons p rest ih =>
    obtain ⟨k1, v⟩ := p
    simp only [List.map]
    by_cases heq : k1 = k
    · subst heq
      rw [if_pos (by simp)]
      simp [List.lookup]
    · rw [if_neg (by simp [heq])]
      have hk : (k == k1) = false := by simpa using Ne.symm heq
      simp only [List.lookup, hk] at h ⊢
      exact ih h

lemma adjust_probability_eq (base : ℚ) (L : ThreatLandscape) :
    adjust_probability base L =
      min (base * (1 + L.vulnerability_density * 0.5)
        * (1 + L.threat_activity_level * 0.3)
        * (if 0 < L.unencrypted_connections then 1.2 else 1)
        * (if L.security_posture.encryption_coverage < 0.5 then 1.3 else 1)
        * (if L.security_posture.authentication_coverage < 0.5 then 1.4 else 1)) 1 := by
  unfold adjust_probability
  dsimp only
  split_ifs <;> (congr 1 <;> ring)

/-- C4 (confirmed): every scenario returned by `predict_attacks` carries the
probability `min(base · (1 + 0.5·density) · (1 + 0.3·activity) · (1.2 if any
unencrypted connection) · (1.3 if encryption coverage < 0.5) · (1.4 if
authentication coverage < 0.5), 1)` for its attack type's base probability,
and that probability never exceeds 1. -/
theorem predict_attacks_probability (es : Entities) (events : List SecurityEvent)
    (s : AttackScenario) (hs : s ∈ predict_attacks es events) :
    ∃ info : AttackInfo, attack_types.lookup s.type = some info ∧
      s.probability = min (info.probability_base
        * (1 + calculate_vulnerability_density es * 0.5)
        * (1 + calculate_threat_activity events * 0.3)
        * (if 0 < count_unencrypted_connections es then 1.2 else 1)
        * (if (assess_security_posture es).encryption_coverage < 0.5 then 1.3 else 1)
        * (if (assess_security_posture es).authentication_coverage < 0.5 then 1.4 else 1))
        1 ∧
      s.probability ≤ 1 := by
  unfold predict_attacks rank_scenarios at hs
  have hs1 : s ∈ (attack_types.flatMap (fun t => generate_attack_scenarios t.1 t.2 es
      (analyze_threat_landscape es events))).map
      (fun sc => { sc with risk_score := sc.probability * sc.impact_score }) :=
    (List.perm_insertionSort _ _).subset hs
  obtain ⟨s0, hs0, rfl⟩ := List.mem_map.mp hs1
  obtain ⟨t, ht, hgen⟩ := List.mem_flatMap.mp hs0
  unfold generate_attack_scenarios at hgen
  dsimp only at hgen
  obtain ⟨a, _, rfl⟩ := List.mem_map.mp hgen
  refine ⟨t.2, ?_, ?_, ?_⟩
  · show attack_types.lookup t.1 = some t.2
    fin_cases ht <;> rfl
  · show adjust_probability t.2.probability_base (analyze_threat_landscape es events) = _
    rw [adjust_probability_eq]
    rfl
  · show adjust_probability t.2.probability_base (analyze_threat_landscape es events) ≤ 1
    rw [adjust_probability_eq]
    exact min_le_right _ _

/-- The attack-type catalog entry for `'ransomware'`, used by the C4 witness. -/
def ransomware_info : AttackInfo :=
  ⟨0.15, Severity.critical, ["patient_data", "medical_devices", "hospital_systems"]⟩

/-- The threat-actor catalog entry for `'medical_device_hackers'` (the actor
compatible with `'ransomware'`), used by the C4 witness. -/
def mdh_actor : ActorInfo := ⟨"high", ["medical_devices", "patient_monitors"]⟩

/-- The first scenario `predict_attacks` produces on an empty entity map and
no events: ransomware by medical-device hackers. -/
def sample_scenario : AttackScenario :=
  let s0 := create_attack_scenario "ransomware" ransomware_info "medical_device_hackers"
    mdh_actor [] (adjust_probability ransomware_info.probability_base
      (analyze_threat_landscape [] []))
  { s0 with risk_score := s0.probability * s0.impact_score }

/-- C4 (witness): the theorem applied to the concrete ransomware scenario
generated from the empty entity map and no events. -/
theorem predict_attacks_probability_witness :
    ∃ s ∈ predict_attacks [] [],
      ∃ info : AttackInfo, attack_types.lookup s.type = some info ∧
        s.probability = min (info.probability_base
          * (1 + calculate_vulnerability_density [] * 0.5)
          * (1 + calculate_threat_activity [] * 0.3)
          * (if 0 < count_unencrypted_connections [] then 1.2 else 1)
          * (if (assess_security_posture []).encryption_coverage < 0.5 then 1.3 else 1)
          * (if (assess_security_posture []).authentication_coverage < 0.5 then 1.4 else 1))
          1 ∧
        s.probability ≤ 1 := by
  have hmem : sample_scenario ∈ predict_attacks [] [] := by
    unfold predict_attacks rank_scenarios sample_scenario
    apply (List.perm_insertionSort _ _).mem_iff.mpr
    apply List.mem_map_of_mem
    apply List.mem_flatMap.mpr
    refine ⟨("ransomware", ransomware_info), ?_, ?_⟩
    · simp [attack_types, ransomware_info]
    · unfold generate_attack_scenarios
      dsimp only
      have hact : ("medical_device_hackers", mdh_actor) ∈ threat_actors.filter
          (fun a => is_compatible_target ransomware_info.targets a.2) := by decide
      exact List.mem_map_of_mem _ hact
  exact ⟨sample_scenario, hmem, predict_attacks_probability [] [] sample_scenario hmem⟩

section StableSortLemmas

variable {α : Type} (key : α → ℕ) (Q : α → α → Prop)

/-- Stability of `List.orderedInsert` for a descending sort by `key`: if the
list is pairwise "strictly larger key, or equal key and `Q`-related", and the
inserted element is `Q`-below everything in the list (it came later in the
input), the insertion preserves that shape. -/
lemma pairwise_orderedInsert_desc (x : α) (l : List α)
    (hl : l.Pairwise (fun a b => key b < key a ∨ (key a = key b ∧ Q a b)))
    (hx : ∀ y ∈ l, Q x y) :
    (List.orderedInsert (fun a b => key b ≤ key a) x l).Pairwise
      (fun a b => key b < key a ∨ (key a = key b ∧ Q a b)) := by
  induction l with
  | nil => simp [List.orderedInsert]
  | cons b l ih =>
    rw [List.orderedInsert]
    rcases List.pairwise_cons.mp hl with ⟨hb, hl'⟩
    by_cases hxb : key b ≤ key x
    · rw [if_pos hxb]
      refine List.pairwise_cons.mpr ⟨?_, hl⟩
      intro z hz
      rcases List.mem_cons.mp hz with rfl | hz
      · rcases lt_or_eq_of_le hxb with hlt | heq
        · exact Or.inl hlt
        · exact Or.inr ⟨heq.symm, hx z (List.mem_cons_self _ _)⟩
      · have hzb : key z ≤ key b := by
          rcases hb z hz with hlt | ⟨heq, _⟩
          · exact le_of_lt hlt
          · exact le_of_eq heq.symm
        rcases lt_or_eq_of_le (le_trans hzb hxb) with hlt | heq
        · exact Or.inl hlt
        · exact Or.inr ⟨heq.symm, hx z (List.mem_cons_of_mem _ hz)⟩
    · rw [if_neg hxb]
      refine List.pairwise_cons.mpr
        ⟨?_, ih hl' (fun y hy => hx y (List.mem_cons_of_mem _ hy))⟩
      intro z hz
      rcases (List.mem_orderedInsert _).mp hz with rfl | hz
      · exact Or.inl (Nat.lt_of_not_le hxb)
      · exact hb z hz

/-- Stability of `List.insertionSort` for a descending sort by `key`: any
pairwise relation `Q` holding along the input (e.g. "appears earlier") is
preserved between equal-key elements of the output. -/
lemma pairwise_insertionSort_desc (l : List α) (hl : l.Pairwise Q) :
    (List.insertionSort (fun a b => key b ≤ key a) l).Pairwise
      (fun a b => key b < key a ∨ (key a = key b ∧ Q a b)) := by
  induction l with
  | nil => simp [List.insertionSort]
  | cons x l ih =>
    rw [List.insertionSort]
    rcases List.pairwise_cons.mp hl with ⟨hx, hl'⟩
    exact pairwise_orderedInsert_desc key Q x _ (ih hl')
      (fun y hy => hx y ((List.perm_insertionSort _ l).subset hy))

end StableSortLemmas

lemma one_le_priority_ordinal (s : String) : 1 ≤ priority_ordinal s := by
  unfold priority_ordinal
  split_ifs <;> norm_num

lemma one_le_effort_reward (s : String) : 1 ≤ effort_reward s := by
  unfold effort_reward
  split_ifs <;> norm_num

lemma one_le_impact_ordinal (s : String) : 1 ≤ impact_ordinal s := by
  unfold impact_ordinal
  split_ifs <;> norm_num

/-- C6 (confirmed): every recommendation leaving
`_prioritize_recommendations` carries
`priority_score = priority_ordinal · impact_ordinal · effort_reward`; that
score is strictly increasing along the priority chain low→medium→high→critical
and the impact chain low→medium→high, and strictly increasing as the effort
ordinal decreases (high→medium→low), holding the other two factors fixed; and
the returned list is a permutation of the scored input, sorted descending by
`priority_score`, with ties keeping any order relation `Q` that held pairwise
along the input (stability: generation order is preserved). -/
theorem prioritize_recommendations_spec :
    (∀ (recs : List Recommendation) (r : Recommendation),
        r ∈ prioritize_recommendations recs →
        r.priority_score =
          priority_ordinal r.priority * impact_ordinal r.impact * effort_reward r.effort) ∧
    (∀ imp eff : String, List.Chain' (· < ·) ((["low", "medium", "high", "critical"]).map
        (fun p => priority_ordinal p * impact_ordinal imp * effort_reward eff))) ∧
    (∀ pr eff : String, List.Chain' (· < ·) ((["low", "medium", "high"]).map
        (fun imp => priority_ordinal pr * impact_ordinal imp * effort_reward eff))) ∧
    (∀ pr imp : String, List.Chain' (· < ·) ((["high", "medium", "low"]).map
        (fun eff => priority_ordinal pr * impact_ordinal imp * effort_reward eff))) ∧
    (∀ recs : List Recommendation,
        (prioritize_recommendations recs).Perm (recs.map assign_priority_score)) ∧
    (∀ (recs : List Recommendation) (Q : Recommendation → Recommendation → Prop),
        (recs.map assign_priority_score).Pairwise Q →
        (prioritize_recommendations recs).Pairwise (fun a b =>
          b.priority_score < a.priority_score ∨
            (a.priority_score = b.priority_score ∧ Q a b))) := by
  refine ⟨?_, ?_, ?_, ?_, ?_, ?_⟩
  · intro recs r hr
    have hr' : r ∈ recs.map assign_priority_score :=
      (List.perm_insertionSort _ _).subset hr
    obtain ⟨r0, _, rfl⟩ := List.mem_map.mp hr'
    simp [assign_priority_score]
  · intro imp eff
    have hi := one_le_impact_ordinal imp
    have he := one_le_effort_reward eff
    have e1 : priority_ordinal "low" = 1 := by decide
    have e2 : priority_ordinal "medium" = 2 := by decide
    have e3 : priority_ordinal "high" = 3 := by decide
    have e4 : priority_ordinal "critical" = 4 := by decide
    simp only [List.map, List.chain'_cons, List.chain'_singleton, and_true,
      e1, e2, e3, e4]
    refine ⟨?_, ?_, ?_⟩ <;> nlinarith
  · intro pr eff
    have hp := one_le_priority_ordinal pr
    have he := one_le_effort_reward eff
    have e1 : impact_ordinal "low" = 1 := by decide
    have e2 : impact_ordinal "medium" = 2 := by decide
    have e3 : impact_ordinal "high" = 3 := by decide
    simp only [List.map, List.chain'_cons, List.chain'_singleton, and_true,
      e1, e2, e3]
    refine ⟨?_, ?_⟩ <;> nlinarith
  · intro pr imp
    have hp := one_le_priority_ordinal pr
    have hi := one_le_impact_ordinal imp
    have e1 : effort_reward "high" = 1 := by decide
    have e2 : effort_reward "medium" = 2 := by decide
    have e3 : effort_reward "low" = 3 := by decide
    simp only [List.map, List.chain'_cons, List.chain'_singleton, and_true,
      e1, e2, e3]
    refine ⟨?_, ?_⟩ <;> nlinarith
  · intro recs
    exact List.perm_insertionSort _ _
  · intro recs Q hQ
    exact pairwise_insertionSort_desc (fun r => r.priority_score) Q _ hQ

/-- C6 (witness): the theorem's score formula applied to the single
encryption recommendation (priority high = 3, impact high = 3, effort
medium = 2, so score 18). -/
theorem prioritize_recommendations_spec_witness :
    (assign_priority_score (create_recommendation "encryption" sample_entity)).priority_score
      = 18 := by
  have h := prioritize_recommendations_spec.1
    [create_recommendation "encryption" sample_entity]
    (assign_priority_score (create_recommendation "encryption" sample_entity)) (by decide)
  rw [h]
  decide

lemma apply_all_entities_none_iff (f : Entity → Except String Entity) (l : Entities) :
    (apply_all_entities f l).1 = none ↔ ∀ p ∈ l, ∃ e', f p.2 = Except.ok e' := by
  induction l with
  | nil => simp [apply_all_entities]
  | cons p rest ih =>
    obtain ⟨k, e⟩ := p
    cases hf : f e with
    | ok e' =>
        simp only [apply_all_entities, hf]
        constructor
        · intro h q hq
          rcases List.mem_cons.mp hq with rfl | hq
          · exact ⟨e', hf⟩
          · exact ih.mp h q hq
        · intro h
          exact ih.mpr (fun q hq => h q (List.mem_cons_of_mem _ hq))
    | error msg =>
        simp only [apply_all_entities, hf]
        constructor
        · intro h
          simp at h
        · intro h
          obtain ⟨e', he'⟩ := h (k, e) (List.mem_cons_self _ _)
          rw [hf] at he'
          exact absurd he' (by simp)

lemma apply_all_entities_error_mem (f : Entity → Except String Entity) (l : Entities)
    (msg : String) (h : (apply_all_entities f l).1 = some msg) :
    ∃ p ∈ l, f p.2 = Except.error msg := by
  induction l with
  | nil => simp [apply_all_entities] at h
  | cons p rest ih =>
    obtain ⟨k, e⟩ := p
    cases hf : f e with
    | ok e' =>
        rw [apply_all_entities, hf] at h
        obtain ⟨q, hq, hqe⟩ := ih h
        exact ⟨q, List.mem_cons_of_mem _ hq, hqe⟩
    | error msg' =>
        rw [apply_all_entities, hf] at h
        simp at h
        subst h
        exact ⟨(k, e), List.mem_cons_self _ _, hf⟩

/-- C8 (confirmed): the `try/except Exception` boundary of
`apply_recommendation`, stated for an arbitrary internal mutation step (an
`Except.error` of `step` models a raised exception); the Lean function is
total, so nothing crosses the boundary.  The behaviour is conditional on
failure, in every case: the system-wide loop reports `none` exactly when
every entity's mutation step succeeds, and a reported error is the error some
entity's step actually raised; when no step fails (or the single target is
absent) the call returns `True` with `status='applied'` and a timestamp;
when a mutation step fails with message `msg`, the call returns `False` with
`status='failed'` and the captured text `msg` on the recommendation. -/
theorem apply_recommendation_failure_reporting
    (step : Recommendation → Entity → Except String Entity) (now : ℕ)
    (rec : Recommendation) (es : Entities) :
    ((apply_all_entities (step rec) es).1 = none ↔
      ∀ p ∈ es, ∃ e', step rec p.2 = Except.ok e') ∧
    (∀ msg, (apply_all_entities (step rec) es).1 = some msg →
      ∃ p ∈ es, step rec p.2 = Except.error msg) ∧
    (rec.target_entity = "system_wide" →
      (∀ es', apply_all_entities (step rec) es = (none, es') →
        apply_recommendation_with step now rec es =
          (true, { rec with status := "applied", applied_at := some now }, es')) ∧
      (∀ msg es', apply_all_entities (step rec) es = (some msg, es') →
        apply_recommendation_with step now rec es =
          (false, { rec with status := "failed", error := some msg }, es'))) ∧
    (rec.target_entity ≠ "system_wide" →
      (∀ e, es.lookup rec.target_entity = some e →
        (∀ e', step rec e = Except.ok e' →
          apply_recommendation_with step now rec es =
            (true, { rec with status := "applied", applied_at := some now },
              es.map (fun p => if p.1 == rec.target_entity then (p.1, e') else p))) ∧
        (∀ msg, step rec e = Except.error msg →
          apply_recommendation_with step now rec es =
            (false, { rec with status := "failed", error := some msg }, es))) ∧
      (es.lookup rec.target_entity = none →
        apply_recommendation_with step now rec es =
          (true, { rec with status := "applied", applied_at := some now }, es))) := by
  refine ⟨apply_all_entities_none_iff (step rec) es,
    fun msg => apply_all_entities_error_mem (step rec) es msg, ?_, ?_⟩
  · intro hsw
    constructor
    · intro es' h
      unfold apply_recommendation_with
      rw [if_pos (by simp [hsw]), h]
    · intro msg es' h
      unfold apply_recommendation_with
      rw [if_pos (by simp [hsw]), h]
  · intro hsw
    constructor
    · intro e hlookup
      constructor
      · intro e' hstep
        unfold apply_recommendation_with
        rw [if_neg (by simp [hsw]), hlookup]
        dsimp only
        rw [hstep]
      · intro msg hstep
        unfold apply_recommendation_with
        rw [if_neg (by simp [hsw]), hlookup]
        dsimp only
        rw [hstep]
    · intro hlookup
      unfold apply_recommendation_with
      rw [if_neg (by simp [hsw]), hlookup]

/-- C9 (confirmed): applying a recommendation of type `'encryption'` sets
`security_config.encryption_enabled = True` — on every entity of the map for
the `'system_wide'` target, and on exactly the looked-up entity for a
single-entity target present in the map — and in both cases the
recommendation's status becomes `'applied'` and the call returns `True`. -/
theorem apply_recommendation_encryption (now : ℕ) (rec : Recommendation) (es : Entities)
    (htype : rec.type = "encryption") :
    (rec.target_entity = "system_wide" →
      (apply_recommendation now rec es).1 = true ∧
      (apply_recommendation now rec es).2.1.status = "applied" ∧
      ∀ p ∈ (apply_recommendation now rec es).2.2,
        p.2.security_config.encryption_enabled = true) ∧
    (∀ e, rec.target_entity ≠ "system_wide" → es.lookup rec.target_entity = some e →
      (apply_recommendation now rec es).1 = true ∧
      (apply_recommendation now rec es).2.1.status = "applied" ∧
      (apply_recommendation now rec es).2.2.lookup rec.target_entity =
        some (apply_to_entity rec e) ∧
      (apply_to_entity rec e).security_config.encryption_enabled = true) := by
  have henc : ∀ e : Entity,
      (apply_to_entity rec e).security_config.encryption_enabled = true := by
    intro e
    simp [apply_to_entity, htype]
  constructor
  · intro hsw
    unfold apply_recommendation apply_recommendation_with
    rw [if_pos (by simp [hsw])]
    rw [apply_all_entities_ok (apply_to_entity rec) es]
    refine ⟨rfl, rfl, ?_⟩
    intro p hp
    obtain ⟨q, _, rfl⟩ := List.mem_map.mp hp
    exact henc q.2
  · intro e hsw hlookup
    unfold apply_recommendation apply_recommendation_with
    rw [if_neg (by simp [hsw])]
    rw [hlookup]
    exact ⟨rfl, rfl, lookup_map_replace es rec.target_entity e _ hlookup, henc e⟩

/-- C9 (witness): the theorem applied to the concrete encryption
recommendation targeting `'e1'` in a one-entity map. -/
theorem apply_recommendation_encryption_witness :
    (apply_recommendation 0 (create_recommendation "encryption" sample_entity)
        [("e1", sample_entity)]).1 = true ∧
    (apply_recommendation 0 (create_recommendation "encryption" sample_entity)
        [("e1", sample_entity)]).2.2.lookup "e1" =
      some (apply_to_entity (create_recommendation "encryption" sample_entity)
        sample_entity) ∧
    (apply_to_entity (create_recommendation "encryption" sample_entity)
        sample_entity).security_config.encryption_enabled = true := by
  have h := (apply_recommendation_encryption 0
      (create_recommendation "encryption" sample_entity) [("e1", sample_entity)] rfl).2
      sample_entity (by decide) (by decide)
  exact ⟨h.1, h.2.2.1, h.2.2.2⟩

/-- C10 (confirmed): a single-entity recommendation whose target id is absent
from the map mutates nothing, yet still sets `status='applied'` with a
timestamp and returns `True` — the missing target is reported as success. -/
theorem apply_recommendation_missing_target (now : ℕ) (rec : Recommendation)
    (es : Entities) (hsw : rec.target_entity ≠ "system_wide")
    (habs : es.lookup rec.target_entity = none) :
    apply_recommendation now rec es =
      (true, { rec with status := "applied", applied_at := some now }, es) := by
  unfold apply_recommendation apply_recommendation_with
  rw [if_neg (by simp [hsw])]
  rw [habs]

/-- C10 (witness): the theorem applied to a recommendation targeting `'e9'`
over a map that only contains `'e1'`. -/
theorem apply_recommendation_missing_target_witness :
    apply_recommendation 0
        { create_recommendation "encryption" sample_entity with target_entity := "e9" }
        [("e1", sample_entity)] =
      (true,
       { create_recommendation "encryption" sample_entity with
          target_entity := "e9", status := "applied", applied_at := some 0 },
       [("e1", sample_entity)]) :=
  apply_recommendation_missing_target 0
    { create_recommendation "encryption" sample_entity with target_entity := "e9" }
    [("e1", sample_entity)] (by decide) (by decide)

end DigitalTwin
